import Mathlib

/-!
Verification development for the Doc-scanner PDF extraction service.

The source under scrutiny is `src/services.py`, which has three parts:

* `whisper_extract` - submits a document to the remote extraction service,
  then drives the asynchronous job with an adaptive polling loop (the Job
  Poller);
* `clean_json_response` - strips markdown code fences from the structuring
  model's raw text output (the Response Sanitizer);
* `extract_from_pdf` - orchestrates both remote calls, parses the model
  response as JSON and maps every fault to a uniform result dictionary
  (the Structuring Pipeline).

The embedding below models Python text as `List Char`, remote services as
environments supplying the outcome of each remote call (any call may also
raise, modelled with `Except PyExc`), and Python floats in the polling
schedule as exact rationals (all values reached - 1, 1.5, 2, 2.5, 3 - are
exact in binary floating point, so `ℚ` is faithful here).
-/

/-- Python text, modelled character by character. -/
abbrev Txt := List Char

/-- ASCII whitespace, as recognised by Python's `str.strip` and by `\s`
in the `re` patterns of the source (the non-ASCII Unicode whitespace
characters are not modelled). -/
def isWsChar (c : Char) : Bool :=
  c = ' ' || c = '\t' || c = '\n' || c = '\r' || c = '\x0b' || c = '\x0c'

/-- Python `str.strip()`: remove leading and trailing whitespace. -/
def pyStrip (s : Txt) : Txt :=
  (s.dropWhile isWsChar).rdropWhile isWsChar

/-- The markdown code-fence marker stripped by the sanitizer. -/
def fence : Txt := "```".toList

/-- The fence-with-language-tag form matched by `re.sub(r'^```json\s*', ...)`. -/
def jsonFence : Txt := "```json".toList

/-- `re.sub(r'^TAG\s*', '', s)` for a literal TAG, applied to an already
stripped string: the pattern is anchored at the start of the string (no
MULTILINE flag), so at most the single match at position 0 is removed,
together with the greedy run of whitespace that follows the tag. -/
def dropLeadingTag (tag : Txt) (s : Txt) : Txt :=
  if tag.isPrefixOf s then (s.drop tag.length).dropWhile isWsChar else s

/-- `re.sub(r'\s*```$', '', s)` applied to an already stripped string
(every call site in the source strips first, so `$` can only match at the
true end of the string and the leftmost match, when it exists, consists of
the trailing `fence` occurrence plus the greedy whitespace run before it). -/
def dropTrailingFence (s : Txt) : Txt :=
  if fence.isSuffixOf s then (s.take (s.length - 3)).rdropWhile isWsChar else s

/-- `clean_json_response` from `src/services.py`:

    text = re.sub(r'^```json\s*', '', text.strip())
    text = re.sub(r'^```\s*', '', text.strip())
    text = re.sub(r'\s*```$', '', text.strip())
    return text.strip()
-/
def clean_json_response (text : Txt) : Txt :=
  let t1 := dropLeadingTag jsonFence (pyStrip text)
  let t2 := dropLeadingTag fence (pyStrip t1)
  let t3 := dropTrailingFence (pyStrip t2)
  pyStrip t3

/-- `true` when the code-fence marker occurs as a contiguous substring. -/
def hasFence : Txt → Bool
  | [] => false
  | c :: rest => fence.isPrefixOf (c :: rest) || hasFence rest

/-- A JSON value as produced by Python's `json.loads`.  Numeric literals
are kept as their lexeme: no claim depends on numeric values, and this
avoids modelling floating point. -/
inductive Json where
  | null
  | bool (b : Bool)
  | num (lexeme : Txt)
  | str (s : Txt)
  | arr (elems : List Json)
  | obj (members : List (Txt × Json))

/-- Whitespace accepted between JSON tokens by Python's `json` module. -/
def jsonWs (c : Char) : Bool :=
  c = ' ' || c = '\t' || c = '\n' || c = '\r'

/-- Skip inter-token JSON whitespace. -/
def skipWs : Txt → Txt
  | [] => []
  | c :: rest => if jsonWs c then skipWs rest else c :: rest

/-- Value of a hexadecimal digit. -/
def hexVal (c : Char) : Option Nat :=
  if '0' ≤ c ∧ c ≤ '9' then some (c.toNat - '0'.toNat)
  else if 'a' ≤ c ∧ c ≤ 'f' then some (c.toNat - 'a'.toNat + 10)
  else if 'A' ≤ c ∧ c ≤ 'F' then some (c.toNat - 'A'.toNat + 10)
  else none

/-- Single-character JSON string escapes. -/
def escChar (e : Char) : Option Char :=
  if e = '"' then some '"'
  else if e = '\\' then some '\\'
  else if e = '/' then some '/'
  else if e = 'b' then some '\x08'
  else if e = 'f' then some '\x0c'
  else if e = 'n' then some '\n'
  else if e = 'r' then some '\r'
  else if e = 't' then some '\t'
  else none

/-- Parse the body of a JSON string after the opening quote; returns the
decoded content and the remaining input.  Unescaped control characters are
rejected, as in Python's strict default. -/
def parseStringBody : Nat → Txt → Except Txt (Txt × Txt)
  | 0, _ => Except.error ("Unterminated string".toList)
  | _ + 1, [] => Except.error ("Unterminated string".toList)
  | fuel + 1, c :: rest =>
    if c = '"' then Except.ok ([], rest)
    else if c = '\\' then
      match rest with
      | [] => Except.error ("Unterminated string".toList)
      | e :: rest2 =>
        if e = 'u' then
          match rest2 with
          | a :: b :: c2 :: d :: rest3 =>
            match hexVal a, hexVal b, hexVal c2, hexVal d with
            | some ha, some hb, some hc, some hd =>
              match parseStringBody fuel rest3 with
              | Except.ok (s, r) =>
                  Except.ok (Char.ofNat (((ha * 16 + hb) * 16 + hc) * 16 + hd) :: s, r)
              | Except.error m => Except.error m
            | _, _, _, _ => Except.error ("Invalid \\uXXXX escape".toList)
          | _ => Except.error ("Invalid \\uXXXX escape".toList)
        else
          match escChar e with
          | some ch =>
            match parseStringBody fuel rest2 with
            | Except.ok (s, r) => Except.ok (ch :: s, r)
            | Except.error m => Except.error m
          | none => Except.error ("Invalid \\escape".toList)
    else if c.toNat < 32 then Except.error ("Invalid control character".toList)
    else
      match parseStringBody fuel rest with
      | Except.ok (s, r) => Except.ok (c :: s, r)
      | Except.error m => Except.error m

/-- Longest leading run of decimal digits, and the rest. -/
def digitSpan : Txt → Txt × Txt
  | [] => ([], [])
  | c :: rest =>
    if c.isDigit then
      let r := digitSpan rest
      (c :: r.1, r.2)
    else ([], c :: rest)

/-- Integer part of a JSON number: `0` or a nonzero digit followed by
digits (a leading zero is not followed by more digits, as in the JSON
number grammar used by Python's scanner). -/
def parseIntPart : Txt → Option (Txt × Txt)
  | [] => none
  | c :: rest =>
    if c = '0' then some (['0'], rest)
    else if c.isDigit then
      let r := digitSpan rest
      some (c :: r.1, r.2)
    else none

/-- Optional fraction and exponent of a JSON number; a malformed tail is
simply not consumed, exactly as a regex with optional groups matches. -/
def parseNumTail (s : Txt) : Txt × Txt :=
  let fr :=
    match s with
    | '.' :: r =>
      match digitSpan r with
      | ([], _) => (([] : Txt), s)
      | (ds, r2) => ('.' :: ds, r2)
    | _ => (([] : Txt), s)
  let s1 := fr.2
  let ex :=
    match s1 with
    | e :: r =>
      if e = 'e' ∨ e = 'E' then
        match r with
        | sgn :: r2 =>
          if sgn = '+' ∨ sgn = '-' then
            match digitSpan r2 with
            | ([], _) => (([] : Txt), s1)
            | (ds, r3) => (e :: sgn :: ds, r3)
          else
            match digitSpan r with
            | ([], _) => (([] : Txt), s1)
            | (ds, r3) => (e :: ds, r3)
        | [] => (([] : Txt), s1)
      else (([] : Txt), s1)
    | [] => (([] : Txt), s1)
  (fr.1 ++ ex.1, ex.2)

/-- A JSON number lexeme (with optional leading minus), or `none` when the
input does not start with a number. -/
def parseNumber : Txt → Option (Txt × Txt)
  | '-' :: rest =>
    (match parseIntPart rest with
     | some (ip, r) =>
       let t := parseNumTail r
       some ('-' :: (ip ++ t.1), t.2)
     | none => none)
  | s =>
    match parseIntPart s with
    | some (ip, r) =>
      let t := parseNumTail r
      some (ip ++ t.1, t.2)
    | none => none

/-- Mode of the single recursive JSON parser: a plain value, the remaining
elements of an array, or the remaining members of an object. -/
inductive PMode where
  | value
  | elems (acc : List Json)
  | members (acc : List (Txt × Json))

/-- Diagnostic produced when no JSON value starts at the current input. -/
def expectingValueMsg : Txt := "Expecting value".toList

/-- Recursive-descent JSON parser modelling Python's `json` scanner
(`NaN`, `Infinity` and `-Infinity` are accepted, as by Python's default).
Diagnostics are simplified stand-ins for CPython's messages. -/
def parseJ : Nat → PMode → Txt → Except Txt (Json × Txt)
  | 0, _, _ => Except.error ("Nesting too deep".toList)
  | fuel + 1, PMode.value, s =>
    match skipWs s with
    | 'n' :: 'u' :: 'l' :: 'l' :: rest => Except.ok (Json.null, rest)
    | 't' :: 'r' :: 'u' :: 'e' :: rest => Except.ok (Json.bool true, rest)
    | 'f' :: 'a' :: 'l' :: 's' :: 'e' :: rest => Except.ok (Json.bool false, rest)
    | 'N' :: 'a' :: 'N' :: rest => Except.ok (Json.num ("NaN".toList), rest)
    | 'I' :: 'n' :: 'f' :: 'i' :: 'n' :: 'i' :: 't' :: 'y' :: rest =>
        Except.ok (Json.num ("Infinity".toList), rest)
    | '-' :: 'I' :: 'n' :: 'f' :: 'i' :: 'n' :: 'i' :: 't' :: 'y' :: rest =>
        Except.ok (Json.num ("-Infinity".toList), rest)
    | '"' :: rest =>
      (match parseStringBody (rest.length + 1) rest with
       | Except.ok (s1, r) => Except.ok (Json.str s1, r)
       | Except.error m => Except.error m)
    | '[' :: rest =>
      (match skipWs rest with
       | ']' :: r2 => Except.ok (Json.arr [], r2)
       | r2 => parseJ fuel (PMode.elems []) r2)
    | '{' :: rest =>
      (match skipWs rest with
       | '}' :: r2 => Except.ok (Json.obj [], r2)
       | r2 => parseJ fuel (PMode.members []) r2)
    | s2 =>
      match parseNumber s2 with
      | some (lex, r) => Except.ok (Json.num lex, r)
      | none => Except.error expectingValueMsg
  | fuel + 1, PMode.elems acc, s =>
    match parseJ fuel PMode.value s with
    | Except.error m => Except.error m
    | Except.ok (v, r) =>
      match skipWs r with
      | ',' :: r2 => parseJ fuel (PMode.elems (acc ++ [v])) r2
      | ']' :: r2 => Except.ok (Json.arr (acc ++ [v]), r2)
      | _ => Except.error ("Expecting delimiter".toList)
  | fuel + 1, PMode.members acc, s =>
    match skipWs s with
    | '"' :: rest =>
      (match parseStringBody (rest.length + 1) rest with
       | Except.error m => Except.error m
       | Except.ok (key, r) =>
         match skipWs r with
         | ':' :: r2 =>
           (match parseJ fuel PMode.value r2 with
            | Except.error m => Except.error m
            | Except.ok (v, r3) =>
              match skipWs r3 with
              | ',' :: r4 => parseJ fuel (PMode.members (acc ++ [(key, v)])) r4
              | '}' :: r4 => Except.ok (Json.obj (acc ++ [(key, v)]), r4)
              | _ => Except.error ("Expecting delimiter".toList))
         | _ => Except.error ("Expecting colon delimiter".toList))
    | _ => Except.error ("Expecting property name enclosed in double quotes".toList)

/-- Python `json.loads`: parse one JSON document, allowing surrounding
whitespace and rejecting trailing data. -/
def json_loads (s : Txt) : Except Txt Json :=
  match parseJ (2 * s.length + 4) PMode.value s with
  | Except.error m => Except.error m
  | Except.ok (v, rest) =>
    if skipWs rest = [] then Except.ok v else Except.error ("Extra data".toList)

/-- A Python exception, as classified by the handlers of
`extract_from_pdf`: `TimeoutError`, `RuntimeError`, or any other
`Exception` subclass, carried with `str(e)` and `type(e).__name__`. -/
inductive PyExc where
  | timeoutError (msg : Txt)
  | runtimeError (msg : Txt)
  | otherExc (typeName : Txt) (msg : Txt)

/-- The dictionary returned by `client.whisper_status`: the `status` value
and the optional `message` entry read by `status.get('message', ...)`. -/
structure WhisperStatus where
  status : Txt
  message : Option Txt

/-- Environment for one `whisper_extract` invocation: the outcome of each
remote call of the extraction client.  `whisperSubmit` is `client.whisper`
(its `whisper_hash` field), `whisperStatus j` the `j`-th
`client.whisper_status` call (0-indexed), `whisperRetrieve` the
`result_text` of `client.whisper_retrieve`.  Any call may raise. -/
structure WhisperEnv where
  whisperSubmit : Except PyExc Txt
  whisperStatus : Nat → Except PyExc WhisperStatus
  whisperRetrieve : Except PyExc Txt

/-- Observable outcome of the polling loop: its result (or the exception
it raises), the number of status checks performed, and the list of
`time.sleep` intervals executed, in order. -/
structure PollOut where
  result : Except PyExc Txt
  checks : Nat
  sleeps : List ℚ

/-- Exception message of the `TimeoutError` raised when the polling budget
is exhausted. -/
def timeoutRaisedMsg : Txt := "PDF processing timed out after 2 minutes".toList

/-- Leading part of the `RuntimeError` message raised on a `failed` job. -/
def failedMsgHead : Txt := "Whisperer failed: ".toList

/-- Default used by `status.get('message', 'Unknown error')`. -/
def unknownErrorMsg : Txt := "Unknown error".toList

/-- The polling loop of `whisper_extract`, from the `k`-th status check on
with `fuel` loop iterations remaining and the current `poll_interval`:

    for attempt in range(max_attempts):
        status = client.whisper_status(whisper_hash=whisper_hash)
        if status['status'] == 'processed':
            resultx = client.whisper_retrieve(whisper_hash=whisper_hash)
            return resultx['extraction']['result_text']
        elif status['status'] == 'failed':
            raise RuntimeError(f"Whisperer failed: ...")
        time.sleep(poll_interval)
        poll_interval = min(poll_interval + 0.5, 3)
    raise TimeoutError("PDF processing timed out after 2 minutes")
-/
def pollFrom (env : WhisperEnv) : Nat → Nat → ℚ → PollOut
  | 0, _, _ => ⟨Except.error (PyExc.timeoutError timeoutRaisedMsg), 0, []⟩
  | fuel + 1, k, interval =>
    match env.whisperStatus k with
    | Except.error e => ⟨Except.error e, 1, []⟩
    | Except.ok st =>
      if st.status = "processed".toList then
        match env.whisperRetrieve with
        | Except.error e => ⟨Except.error e, 1, []⟩
        | Except.ok txt => ⟨Except.ok txt, 1, []⟩
      else if st.status = "failed".toList then
        ⟨Except.error (PyExc.runtimeError (failedMsgHead ++ st.message.getD unknownErrorMsg)),
          1, []⟩
      else
        let rest := pollFrom env fuel (k + 1) (min (interval + 1 / 2) 3)
        ⟨rest.result, rest.checks + 1, interval :: rest.sleeps⟩

/-- The body of the `try` block of `whisper_extract`: submit, then poll
with `max_attempts = 60` starting at `poll_interval = 1`. -/
def whisperBody (env : WhisperEnv) : PollOut :=
  match env.whisperSubmit with
  | Except.error e => ⟨Except.error e, 0, []⟩
  | Except.ok _ => pollFrom env 60 0 1

/-- A `try ... finally` over a filesystem state (here a single `Bool`:
whether this invocation's temporary file exists): the body runs first and
the cleanup action is applied to the resulting state regardless of whether
the body returned or raised. -/
def tryFinallyFS {α : Type} (body : Bool → α × Bool) (fin : Bool → Bool) (fs0 : Bool) :
    α × Bool :=
  let r := body fs0
  (r.1, fin r.2)

/-- The `finally` block: `os.unlink(tmp_path)` with any exception from the
unlink swallowed.  Local file operations are modelled as succeeding, so
the state after cleanup is `false` (file gone). -/
def unlinkQuiet (_fs : Bool) : Bool := false

/-- Observable outcome of one `whisper_extract` invocation. -/
structure WhisperRun where
  result : Except PyExc Txt
  checks : Nat
  sleeps : List ℚ
  tmpExistsAfter : Bool

/-- `whisper_extract` from `src/services.py`: the temporary file is
created and written before the `try` (state `true`); the submit/poll body
performs no local filesystem changes; the `finally` unlinks the file on
every exit path, normal return or raised exception alike. -/
def whisper_extract (env : WhisperEnv) : WhisperRun :=
  let run := tryFinallyFS (fun fs => (whisperBody env, fs)) unlinkQuiet true
  ⟨run.1.result, run.1.checks, run.1.sleeps, run.2⟩

/-- Environment of `extract_from_pdf`: the poller's environment plus the
structuring-model call, `client_genai.models.generate_content(...).text`,
as a function of the prompt submitted (which may also raise). -/
structure PipelineEnv where
  whisper : WhisperEnv
  gemini : Txt → Except PyExc Txt

/-- The prompt built by `extract_from_pdf` around the extracted text. -/
def promptHead : Txt :=
  ("Extract information from this document and return ONLY a JSON object (no markdown, no explanation).\n\nRequired fields:\n- invoice_number: string (or null if not found)\n- date: string in format \"DD MMM YYYY\" (or null)\n- vendor: string (or null)\n- total_amount: string (or null)\n- currency: string (3-letter code like USD, EUR, or null)\n\nDocument text:\n").toList

/-- Trailing part of the prompt, after the embedded document text. -/
def promptTail : Txt :=
  ("\n\nReturn ONLY the JSON object, nothing else:").toList

/-- The f-string prompt with the extracted text embedded. -/
def buildPrompt (text : Txt) : Txt := promptHead ++ text ++ promptTail

/-- The result dictionaries built by `extract_from_pdf`, one constructor
per dict literal in the source; `error` holds the value of the `"error"`
key (the failure category). -/
inductive PipelineResult where
  | okR (data : Json) (raw_text_preview : Txt)
  | parseFail (error : Txt) (gemini_response : Txt) (parse_error : Txt) (raw_text_preview : Txt)
  | timeoutFail (error : Txt) (details : Txt)
  | runtimeFail (error : Txt) (details : Txt)
  | unexpectedFail (error : Txt) (details : Txt) (typeName : Txt)

/-- The `"success"` discriminant of a result dictionary. -/
def PipelineResult.success : PipelineResult → Bool
  | PipelineResult.okR _ _ => true
  | _ => false

/-- Failure category of the JSON-parse failure branch. -/
def parseFailCategory : Txt := "Failed to parse JSON from Gemini".toList

/-- Failure category of the `except TimeoutError` handler. -/
def timeoutCategory : Txt := "PDF processing timeout".toList

/-- Failure category of the `except RuntimeError` handler. -/
def runtimeCategory : Txt := "PDF processing failed".toList

/-- Failure category of the catch-all `except Exception` handler. -/
def unexpectedCategory : Txt := "Unexpected error".toList

/-- The body of the outer `try` of `extract_from_pdf`: extract the text,
call the structuring model on the built prompt, sanitize and parse the
response.  A `json.JSONDecodeError` from `json.loads` is caught by the
inner handler and already mapped to a failure dict here; any other
exception propagates to the outer handlers. -/
def runPipeline (env : PipelineEnv) : Except PyExc PipelineResult :=
  match (whisper_extract env.whisper).result with
  | Except.error e => Except.error e
  | Except.ok text =>
    match env.gemini (buildPrompt text) with
    | Except.error e => Except.error e
    | Except.ok rawResponse =>
      let cleaned_text := clean_json_response rawResponse
      match json_loads cleaned_text with
      | Except.ok extracted =>
          Except.ok (PipelineResult.okR extracted (text.take 200))
      | Except.error e =>
          Except.ok (PipelineResult.parseFail parseFailCategory cleaned_text e (text.take 200))

/-- The exception handler chain of `extract_from_pdf`: `TimeoutError`,
then `RuntimeError`, then the catch-all `except Exception`. -/
def handleExc : PyExc → PipelineResult
  | PyExc.timeoutError m => PipelineResult.timeoutFail timeoutCategory m
  | PyExc.runtimeError m => PipelineResult.runtimeFail runtimeCategory m
  | PyExc.otherExc ty m => PipelineResult.unexpectedFail unexpectedCategory m ty

/-- `extract_from_pdf` from `src/services.py`.  The `Except` return type
records whether an exception escapes the function: the handlers turn every
raised exception into a returned dictionary, so the `error` branch is
never produced (the theorems below prove this). -/
def extract_from_pdf (env : PipelineEnv) : Except PyExc PipelineResult :=
  match runPipeline env with
  | Except.ok r => Except.ok r
  | Except.error e => Except.ok (handleExc e)

/-- `true` when the `j`-th status check neither raises nor returns a
terminal status (`processed` or `failed`). -/
def nonTerminalBool (env : WhisperEnv) (j : Nat) : Bool :=
  match env.whisperStatus j with
  | Except.error _ => false
  | Except.ok st =>
    if st.status = "processed".toList then false
    else if st.status = "failed".toList then false
    else true

/-- Lookup of a key in parsed JSON object members (Python dict access on
the result of `json.loads`). -/
def jsonLookup (k : Txt) : List (Txt × Json) → Option Json
  | [] => none
  | (k2, v) :: rest => if k2 = k then some v else jsonLookup k rest

/-- `true` when a JSON value is a string or the explicit absence marker. -/
def isStrOrNull : Json → Bool
  | Json.null => true
  | Json.str _ => true
  | _ => false

/-- The five recognized StructuredRecord keys. -/
def recordKeys : List Txt :=
  ["invoice_number".toList, "date".toList, "vendor".toList,
   "total_amount".toList, "currency".toList]

/-- Modelled from the spec: missing from the code, which never validates
the parsed response.  "StructuredRecord: a mapping with recognized keys
`invoice_number`, `date`, `vendor`, `total_amount`, `currency`, each
either a string or explicit absence-marker"; the full mapping has all five
keys, each string-or-null, and no unrecognized keys. -/
def isFullRecord : Json → Bool
  | Json.obj kvs =>
    (recordKeys.all fun k =>
      match jsonLookup k kvs with
      | some v => isStrOrNull v
      | none => false)
    && kvs.all (fun kv => recordKeys.contains kv.1)
  | _ => false

/-- Poller environment whose status checks all answer `processing`. -/
def envAllProcessing : WhisperEnv :=
  ⟨Except.ok "h".toList, fun _ => Except.ok ⟨"processing".toList, none⟩,
    Except.ok "x".toList⟩

/-- Poller environment answering `processing, processing, processed,` with
retrieval text `hello` (the worked example of the specification). -/
def envHello : WhisperEnv :=
  ⟨Except.ok "h".toList,
    fun j => if j < 2 then Except.ok ⟨"processing".toList, none⟩
             else Except.ok ⟨"processed".toList, none⟩,
    Except.ok "hello".toList⟩

/-- Same status schedule as `envHello`, used to exhibit the backoff
schedule (one sleep happens between the first and second checks). -/
def envBackoff : WhisperEnv :=
  ⟨Except.ok "h".toList,
    fun j => if j < 2 then Except.ok ⟨"processing".toList, none⟩
             else Except.ok ⟨"processed".toList, none⟩,
    Except.ok "hello".toList⟩

/-- Poller environment that immediately reports `processed` and retrieves
the text `doc`. -/
def envWhisperDoc : WhisperEnv :=
  ⟨Except.ok "h".toList, fun _ => Except.ok ⟨"processed".toList, none⟩,
    Except.ok "doc".toList⟩

/-- Pipeline environment whose structuring model answers the empty JSON
object: valid JSON, but not the full StructuredRecord mapping. -/
def envEmptyObj : PipelineEnv :=
  ⟨envWhisperDoc, fun _ => Except.ok ("\x7b\x7d".toList)⟩

/-- A fenced structuring-model response carrying a full record (the
worked example of the specification). -/
def rawFullRecord : Txt :=
  ("```json\n\x7b\"invoice_number\":\"INV-1\",\"date\":\"01 Jan 2024\",\"vendor\":\"Acme\",\"total_amount\":\"100.00\",\"currency\":\"USD\"\x7d\n```").toList

/-- Pipeline environment whose structuring model answers a fenced full
record (the worked example of the specification). -/
def envFullRecord : PipelineEnv :=
  ⟨⟨Except.ok "h".toList, fun _ => Except.ok ⟨"processed".toList, none⟩,
      Except.ok "doc".toList⟩,
    fun _ => Except.ok rawFullRecord⟩

/-- The parsed record delivered by `envFullRecord`. -/
def fullRecordJson : Json :=
  Json.obj
    [("invoice_number".toList, Json.str ("INV-1".toList)),
     ("date".toList, Json.str ("01 Jan 2024".toList)),
     ("vendor".toList, Json.str ("Acme".toList)),
     ("total_amount".toList, Json.str ("100.00".toList)),
     ("currency".toList, Json.str ("USD".toList))]

/-- Pipeline environment whose structuring model answers prose that is not
JSON (the parse-failure example of the specification). -/
def envNotJson : PipelineEnv :=
  ⟨⟨Except.ok "h".toList, fun _ => Except.ok ⟨"processed".toList, none⟩,
      Except.ok "doc".toList⟩,
    fun _ => Except.ok ("not json at all".toList)⟩

/-- Pipeline environment whose structuring-model call raises a
`TimeoutError`, after a successful extraction job. -/
def envGeminiTimeout : PipelineEnv :=
  ⟨⟨Except.ok "h".toList, fun _ => Except.ok ⟨"processed".toList, none⟩,
      Except.ok "doc".toList⟩,
    fun _ => Except.error (PyExc.timeoutError ("deadline".toList))⟩

/-! ## Lemmas about stripping and fences -/

theorem dropWhile_eq_self_of_prefix {p : Char → Bool} {l l' : Txt}
    (h : List.dropWhile p l = l) (hpre : l' <+: l) : List.dropWhile p l' = l' := by
  cases l' with
  | nil => rfl
  | cons x v =>
    obtain ⟨t, ht⟩ := hpre
    rw [← ht, List.cons_append, List.dropWhile_cons] at h
    by_cases hx : p x = true
    · rw [if_pos hx] at h
      have hlen := (List.dropWhile_suffix (l := v ++ t) p).sublist.length_le
      rw [h] at hlen
      simp at hlen
    · rw [List.dropWhile_cons, if_neg hx]

theorem pyStrip_idem (s : Txt) : pyStrip (pyStrip s) = pyStrip s := by
  unfold pyStrip
  have hdu : (s.dropWhile isWsChar).dropWhile isWsChar = s.dropWhile isWsChar :=
    List.dropWhile_idempotent _ _
  have hdv :
      ((s.dropWhile isWsChar).rdropWhile isWsChar).dropWhile isWsChar
        = (s.dropWhile isWsChar).rdropWhile isWsChar :=
    dropWhile_eq_self_of_prefix hdu (List.rdropWhile_prefix _ _)
  rw [hdv]
  exact List.rdropWhile_idempotent _ _

theorem hasFence_of_isPrefixOf {s : Txt} (h : fence.isPrefixOf s = true) :
    hasFence s = true := by
  cases s with
  | nil => exact absurd h (by decide)
  | cons c rest => simp [hasFence, h]

theorem hasFence_cons_of {c : Char} {rest : Txt} (h : hasFence rest = true) :
    hasFence (c :: rest) = true := by
  simp [hasFence, h]

theorem isPrefixOf_append_ext (l s t : Txt) (h : l.isPrefixOf s = true) :
    l.isPrefixOf (s ++ t) = true := by
  rw [ List.isPrefixOf_iff_prefix] at h ⊢
  exact h.trans (List.prefix_append s t)

theorem hasFence_append_right (a b : Txt) (h : hasFence a = true) :
    hasFence (a ++ b) = true := by
  induction a with
  | nil => simp [hasFence] at h
  | cons c a2 ih =>
    rw [List.cons_append]
    simp only [hasFence, Bool.or_eq_true] at h ⊢
    rcases h with h | h
    · exact Or.inl (by
        have := isPrefixOf_append_ext fence (c :: a2) b h
        rwa [List.cons_append] at this)
    · exact Or.inr (ih h)

theorem hasFence_append_left (a b : Txt) (h : hasFence b = true) :
    hasFence (a ++ b) = true := by
  induction a with
  | nil => simpa using h
  | cons c a2 ih => rw [List.cons_append]; exact hasFence_cons_of ih

theorem hasFence_mono_pre {a s : Txt} (hpre : a <+: s) (h : hasFence a = true) :
    hasFence s = true := by
  obtain ⟨t, rfl⟩ := hpre
  exact hasFence_append_right a t h

theorem hasFence_mono_suf {a s : Txt} (hsuf : a <:+ s) (h : hasFence a = true) :
    hasFence s = true := by
  obtain ⟨t, rfl⟩ := hsuf
  exact hasFence_append_left t a h

theorem hasFence_pyStrip {s : Txt} (h : hasFence s = false) :
    hasFence (pyStrip s) = false := by
  cases hps : hasFence (pyStrip s) with
  | false => rfl
  | true =>
    have h1 : hasFence (s.dropWhile isWsChar) = true :=
      hasFence_mono_pre (List.rdropWhile_prefix _ _) hps
    have h2 : hasFence s = true :=
      hasFence_mono_suf (List.dropWhile_suffix _) h1
    simp [h] at h2

theorem not_pre_fence {s : Txt} (h : hasFence s = false) :
    fence.isPrefixOf s = false := by
  cases hp : fence.isPrefixOf s with
  | false => rfl
  | true => have := hasFence_of_isPrefixOf hp; simp [h] at this

theorem not_preJson_of_not_pre {s : Txt} (hp : fence.isPrefixOf s = false) :
    jsonFence.isPrefixOf s = false := by
  cases hj : jsonFence.isPrefixOf s with
  | false => rfl
  | true =>
    have hjp := List.isPrefixOf_iff_prefix.mp hj
    have hfj : fence <+: jsonFence := ⟨"json".toList, by decide⟩
    have : fence.isPrefixOf s = true :=
      List.isPrefixOf_iff_prefix.mpr (hfj.trans hjp)
    simp [hp] at this

theorem not_suf_fence {s : Txt} (h : hasFence s = false) :
    fence.isSuffixOf s = false := by
  cases hp : fence.isSuffixOf s with
  | false => rfl
  | true =>
    have hsuf := List.isSuffixOf_iff_suffix.mp hp
    have := hasFence_mono_suf hsuf (by decide)
    simp [h] at this

theorem clean_eq_of_stripped_no_outer_fence {S : Txt} (hstrip : pyStrip S = S)
    (hp : fence.isPrefixOf S = false) (hs : fence.isSuffixOf S = false) :
    clean_json_response S = S := by
  have hj : jsonFence.isPrefixOf S = false := not_preJson_of_not_pre hp
  unfold clean_json_response
  simp only [hstrip, dropLeadingTag, dropTrailingFence, hj, hp, hs,
    Bool.false_eq_true, if_false, hstrip]

theorem pyStrip_clean (T : Txt) :
    pyStrip (clean_json_response T) = clean_json_response T := by
  simp only [clean_json_response]
  exact pyStrip_idem _

/-- Claim C4 (counterexample): the Response Sanitizer is not idempotent.
On the input consisting of a bare fence, a newline, a `json`-tagged fence,
a newline and `x`, the first application strips only the bare leading
fence, exposing a fresh leading `json`-tagged fence that a second
application then also strips, so applying the sanitizer twice differs from
applying it once. -/
theorem sanitize_idempotent_counterexample :
    clean_json_response (clean_json_response ("```\n```json\nx".toList)) ≠
      clean_json_response ("```\n```json\nx".toList) := by decide

/-- Claim C4 (amended): the Response Sanitizer is idempotent on every text
whose sanitized output neither begins nor ends with the code-fence marker;
an input whose first pass exposes a fresh leading or trailing fence is
stripped further by a second application. -/
theorem sanitize_idempotent_outside_fences (T : Txt)
    (hp : fence.isPrefixOf (clean_json_response T) = false)
    (hs : fence.isSuffixOf (clean_json_response T) = false) :
    clean_json_response (clean_json_response T) = clean_json_response T :=
  clean_eq_of_stripped_no_outer_fence (pyStrip_clean T) hp hs

/-- Witness for the amended C4 at a concrete fenced input whose sanitized
output `abc` carries no fence. -/
theorem sanitize_idempotent_outside_fences_witness :
    fence.isPrefixOf (clean_json_response (" ```json\nabc``` ".toList)) = false ∧
    fence.isSuffixOf (clean_json_response (" ```json\nabc``` ".toList)) = false ∧
    clean_json_response (clean_json_response (" ```json\nabc``` ".toList)) =
      clean_json_response (" ```json\nabc``` ".toList) :=
  ⟨by decide, by decide,
    sanitize_idempotent_outside_fences (" ```json\nabc``` ".toList) (by decide) (by decide)⟩

/-- Claim C9: on any text that contains no code-fence marker anywhere, the
Response Sanitizer only trims surrounding whitespace: none of the three
substitutions can match, so the composition collapses to `strip`. -/
theorem sanitize_unfenced_is_trim (T : Txt) (h : hasFence T = false) :
    clean_json_response T = pyStrip T := by
  have hS : hasFence (pyStrip T) = false := hasFence_pyStrip h
  have hp := not_pre_fence hS
  have hj := not_preJson_of_not_pre hp
  have hs := not_suf_fence hS
  unfold clean_json_response
  simp only [dropLeadingTag, dropTrailingFence, hj, hp, hs, Bool.false_eq_true, if_false,
    pyStrip_idem]

/-- Witness for C9 at a concrete fence-free input. -/
theorem sanitize_unfenced_is_trim_witness :
    hasFence ("  plain \n text  ".toList) = false ∧
    clean_json_response ("  plain \n text  ".toList) = pyStrip ("  plain \n text  ".toList) :=
  ⟨by decide, sanitize_unfenced_is_trim ("  plain \n text  ".toList) (by decide)⟩

/-! ## Lemmas about the polling loop -/

theorem nonTerminal_spec {env : WhisperEnv} {j : Nat}
    (h : nonTerminalBool env j = true) :
    ∃ st, env.whisperStatus j = Except.ok st ∧
      ¬ st.status = "processed".toList ∧ ¬ st.status = "failed".toList := by
  unfold nonTerminalBool at h
  cases hst : env.whisperStatus j with
  | error e => rw [hst] at h; simp at h
  | ok st =>
    rw [hst] at h
    dsimp only at h
    split_ifs at h with h1 h2
    exact ⟨st, rfl, h1, h2⟩

theorem pollFrom_succ (env : WhisperEnv) (f k : Nat) (i : ℚ) :
    pollFrom env (f + 1) k i =
      (match env.whisperStatus k with
       | Except.error e => (⟨Except.error e, 1, []⟩ : PollOut)
       | Except.ok st =>
         if st.status = "processed".toList then
           match env.whisperRetrieve with
           | Except.error e => ⟨Except.error e, 1, []⟩
           | Except.ok txt => ⟨Except.ok txt, 1, []⟩
         else if st.status = "failed".toList then
           ⟨Except.error (PyExc.runtimeError (failedMsgHead ++ st.message.getD unknownErrorMsg)),
             1, []⟩
         else
           let rest := pollFrom env f (k + 1) (min (i + 1 / 2) 3)
           ⟨rest.result, rest.checks + 1, i :: rest.sleeps⟩) := rfl

theorem pollFrom_step_statusErr (env : WhisperEnv) (f k : Nat) (i : ℚ) (e : PyExc)
    (hst : env.whisperStatus k = Except.error e) :
    pollFrom env (f + 1) k i = ⟨Except.error e, 1, []⟩ := by
  rw [pollFrom_succ, hst]

theorem pollFrom_step_processed (env : WhisperEnv) (f k : Nat) (i : ℚ)
    (st : WhisperStatus) (txt : Txt)
    (hst : env.whisperStatus k = Except.ok st)
    (hp : st.status = "processed".toList)
    (hr : env.whisperRetrieve = Except.ok txt) :
    pollFrom env (f + 1) k i = ⟨Except.ok txt, 1, []⟩ := by
  rw [pollFrom_succ, hst]
  dsimp only
  rw [if_pos hp, hr]

theorem pollFrom_step_retrieveErr (env : WhisperEnv) (f k : Nat) (i : ℚ)
    (st : WhisperStatus) (e : PyExc)
    (hst : env.whisperStatus k = Except.ok st)
    (hp : st.status = "processed".toList)
    (hr : env.whisperRetrieve = Except.error e) :
    pollFrom env (f + 1) k i = ⟨Except.error e, 1, []⟩ := by
  rw [pollFrom_succ, hst]
  dsimp only
  rw [if_pos hp, hr]

theorem pollFrom_step_failed (env : WhisperEnv) (f k : Nat) (i : ℚ)
    (st : WhisperStatus)
    (hst : env.whisperStatus k = Except.ok st)
    (hf : st.status = "failed".toList) :
    pollFrom env (f + 1) k i =
      ⟨Except.error (PyExc.runtimeError (failedMsgHead ++ st.message.getD unknownErrorMsg)),
        1, []⟩ := by
  have hnp : ¬ st.status = "processed".toList := by rw [hf]; decide
  rw [pollFrom_succ, hst]
  dsimp only
  rw [if_neg hnp, if_pos hf]

theorem pollFrom_step_cont (env : WhisperEnv) (f k : Nat) (i : ℚ)
    (st : WhisperStatus)
    (hst : env.whisperStatus k = Except.ok st)
    (hnp : ¬ st.status = "processed".toList)
    (hnf : ¬ st.status = "failed".toList) :
    pollFrom env (f + 1) k i =
      ⟨(pollFrom env f (k + 1) (min (i + 1 / 2) 3)).result,
        (pollFrom env f (k + 1) (min (i + 1 / 2) 3)).checks + 1,
        i :: (pollFrom env f (k + 1) (min (i + 1 / 2) 3)).sleeps⟩ := by
  rw [pollFrom_succ, hst]
  dsimp only
  rw [if_neg hnp, if_neg hnf]

theorem pollFrom_timeout (env : WhisperEnv) :
    ∀ (fuel k : Nat) (i : ℚ), (∀ j, j < fuel → nonTerminalBool env (k + j) = true) →
      (pollFrom env fuel k i).result = Except.error (PyExc.timeoutError timeoutRaisedMsg) ∧
      (pollFrom env fuel k i).checks = fuel := by
  intro fuel
  induction fuel with
  | zero => intro k i _; exact ⟨rfl, rfl⟩
  | succ f ih =>
    intro k i h
    have h0 := h 0 (Nat.succ_pos f)
    rw [Nat.add_zero] at h0
    obtain ⟨st, hst, hnp, hnf⟩ := nonTerminal_spec h0
    rw [pollFrom_step_cont env f k i st hst hnp hnf]
    have hrec := ih (k + 1) (min (i + 1 / 2) 3) (fun j hj => by
      have h2 := h (j + 1) (by omega)
      rwa [show k + (j + 1) = k + 1 + j by omega] at h2)
    exact ⟨hrec.1, congrArg (fun x => x + 1) hrec.2⟩

theorem pollFrom_processed (env : WhisperEnv) (st : WhisperStatus) (txt : Txt) :
    ∀ (n fuel k : Nat) (i : ℚ), n < fuel →
      (∀ j, j < n → nonTerminalBool env (k + j) = true) →
      env.whisperStatus (k + n) = Except.ok st →
      st.status = "processed".toList →
      env.whisperRetrieve = Except.ok txt →
      (pollFrom env fuel k i).result = Except.ok txt ∧
      (pollFrom env fuel k i).checks = n + 1 := by
  intro n
  induction n with
  | zero =>
    intro fuel k i hf _ hst hp hr
    obtain ⟨f2, rfl⟩ : ∃ f2, fuel = f2 + 1 := ⟨fuel - 1, by omega⟩
    rw [Nat.add_zero] at hst
    rw [pollFrom_step_processed env f2 k i st txt hst hp hr]
    exact ⟨rfl, rfl⟩
  | succ m ih =>
    intro fuel k i hf hnt hst hp hr
    obtain ⟨f2, rfl⟩ : ∃ f2, fuel = f2 + 1 := ⟨fuel - 1, by omega⟩
    have h0 := hnt 0 (Nat.succ_pos m)
    rw [Nat.add_zero] at h0
    obtain ⟨st0, hst0, hnp0, hnf0⟩ := nonTerminal_spec h0
    rw [pollFrom_step_cont env f2 k i st0 hst0 hnp0 hnf0]
    have hrec := ih f2 (k + 1) (min (i + 1 / 2) 3) (by omega)
      (fun j hj => by
        have h2 := hnt (j + 1) (by omega)
        rwa [show k + (j + 1) = k + 1 + j by omega] at h2)
      (by rwa [show k + 1 + m = k + (m + 1) by omega])
      hp hr
    exact ⟨hrec.1, congrArg (fun x => x + 1) hrec.2⟩

theorem pollFrom_failed (env : WhisperEnv) (st : WhisperStatus) :
    ∀ (n fuel k : Nat) (i : ℚ), n < fuel →
      (∀ j, j < n → nonTerminalBool env (k + j) = true) →
      env.whisperStatus (k + n) = Except.ok st →
      st.status = "failed".toList →
      (pollFrom env fuel k i).result =
        Except.error (PyExc.runtimeError (failedMsgHead ++ st.message.getD unknownErrorMsg)) ∧
      (pollFrom env fuel k i).checks = n + 1 := by
  intro n
  induction n with
  | zero =>
    intro fuel k i hf _ hst hfl
    obtain ⟨f2, rfl⟩ : ∃ f2, fuel = f2 + 1 := ⟨fuel - 1, by omega⟩
    rw [Nat.add_zero] at hst
    rw [pollFrom_step_failed env f2 k i st hst hfl]
    exact ⟨rfl, rfl⟩
  | succ m ih =>
    intro fuel k i hf hnt hst hfl
    obtain ⟨f2, rfl⟩ : ∃ f2, fuel = f2 + 1 := ⟨fuel - 1, by omega⟩
    have h0 := hnt 0 (Nat.succ_pos m)
    rw [Nat.add_zero] at h0
    obtain ⟨st0, hst0, hnp0, hnf0⟩ := nonTerminal_spec h0
    rw [pollFrom_step_cont env f2 k i st0 hst0 hnp0 hnf0]
    have hrec := ih f2 (k + 1) (min (i + 1 / 2) 3) (by omega)
      (fun j hj => by
        have h2 := hnt (j + 1) (by omega)
        rwa [show k + (j + 1) = k + 1 + j by omega] at h2)
      (by rwa [show k + 1 + m = k + (m + 1) by omega])
      hfl
    exact ⟨hrec.1, congrArg (fun x => x + 1) hrec.2⟩

theorem min_add_min3 (x b : ℚ) (hb : 0 ≤ b) : min (min x 3 + b) 3 = min (x + b) 3 := by
  rcases le_total x 3 with h | h
  · rw [min_eq_left h]
  · rw [min_eq_right h, min_eq_right (by linarith), min_eq_right (by linarith)]

theorem pollFrom_sleeps (env : WhisperEnv) :
    ∀ (fuel k : Nat) (i : ℚ), i ≤ 3 → ∀ n : Nat,
      n < (pollFrom env fuel k i).sleeps.length →
      (pollFrom env fuel k i).sleeps.getD n 0 = min (i + (n : ℚ) / 2) 3 := by
  intro fuel
  induction fuel with
  | zero => intro k i _ n hn; simp [pollFrom] at hn
  | succ f ih =>
    intro k i hi n hn
    cases hst : env.whisperStatus k with
    | error e => rw [pollFrom_step_statusErr env f k i e hst] at hn; simp at hn
    | ok st =>
      by_cases hp : st.status = "processed".toList
      · cases hr : env.whisperRetrieve with
        | error e2 =>
          rw [pollFrom_step_retrieveErr env f k i st e2 hst hp hr] at hn; simp at hn
        | ok txt =>
          rw [pollFrom_step_processed env f k i st txt hst hp hr] at hn; simp at hn
      · by_cases hfl : st.status = "failed".toList
        · rw [pollFrom_step_failed env f k i st hst hfl] at hn; simp at hn
        · rw [pollFrom_step_cont env f k i st hst hp hfl] at hn ⊢
          cases n with
          | zero =>
            simp only [List.getD_cons_zero, Nat.cast_zero, zero_div, add_zero]
            exact (min_eq_left hi).symm
          | succ m =>
            simp only [List.getD_cons_succ]
            have hlen : m < (pollFrom env f (k + 1) (min (i + 1 / 2) 3)).sleeps.length := by
              simp only [List.length_cons] at hn
              omega
            have hrec := ih (k + 1) (min (i + 1 / 2) 3) (min_le_right _ _) m hlen
            rw [hrec, min_add_min3 (i + 1 / 2) ((m : ℚ) / 2) (by positivity)]
            congr 1
            push_cast
            ring

theorem whisperBody_ok {env : WhisperEnv} {hash1 : Txt}
    (hsub : env.whisperSubmit = Except.ok hash1) :
    whisperBody env = pollFrom env 60 0 1 := by
  unfold whisperBody
  rw [hsub]

/-- Claim C2: given a submit call that succeeds and a status sequence that
never reaches a terminal state, the Job Poller performs exactly 60 status
checks, never more, and then fails with the `TimeoutError` raised after
the loop. -/
theorem poller_timeout_after_60_checks (env : WhisperEnv) (hash1 : Txt)
    (hsub : env.whisperSubmit = Except.ok hash1)
    (hnt : ∀ j, j < 60 → nonTerminalBool env j = true) :
    (whisper_extract env).checks = 60 ∧
    (whisper_extract env).result = Except.error (PyExc.timeoutError timeoutRaisedMsg) := by
  have hb := whisperBody_ok hsub
  have ht := pollFrom_timeout env 60 0 1 (fun j hj => by simpa using hnt j hj)
  constructor
  · show (whisperBody env).checks = 60
    rw [hb]; exact ht.2
  · show (whisperBody env).result = _
    rw [hb]; exact ht.1

/-- Witness for C2: all 60 checks answer `processing`. -/
theorem poller_timeout_after_60_checks_witness :
    (whisper_extract envAllProcessing).checks = 60 ∧
    (whisper_extract envAllProcessing).result =
      Except.error (PyExc.timeoutError timeoutRaisedMsg) :=
  poller_timeout_after_60_checks envAllProcessing ("h".toList) rfl (by decide)

/-- Claim C3: if the checks before position `n` are all non-terminal
(`n + 1 ≤ 60`, so the status check at 0-indexed position `n` is the
`n + 1`-st and first terminal one), then: when it answers `processed` the
poller retrieves and returns the job's text having performed exactly
`n + 1` status checks; when it answers `failed` the poller raises the
`RuntimeError` carrying the service-reported message, with the default
`Unknown error` substituted when the service supplies none. -/
theorem poller_first_terminal_status (env : WhisperEnv) (hash1 : Txt) (n : Nat)
    (st : WhisperStatus)
    (hsub : env.whisperSubmit = Except.ok hash1) (hn : n < 60)
    (hnt : ∀ j, j < n → nonTerminalBool env j = true)
    (hst : env.whisperStatus n = Except.ok st) :
    (st.status = "processed".toList →
      ∀ txt, env.whisperRetrieve = Except.ok txt →
        (whisper_extract env).result = Except.ok txt ∧
        (whisper_extract env).checks = n + 1) ∧
    (st.status = "failed".toList →
      (whisper_extract env).result =
        Except.error (PyExc.runtimeError (failedMsgHead ++ st.message.getD unknownErrorMsg)) ∧
      (whisper_extract env).checks = n + 1) := by
  have hb := whisperBody_ok hsub
  constructor
  · intro hp txt hr
    have h := pollFrom_processed env st txt n 60 0 1 hn
      (fun j hj => by simpa using hnt j hj) (by simpa using hst) hp hr
    constructor
    · show (whisperBody env).result = _
      rw [hb]; exact h.1
    · show (whisperBody env).checks = _
      rw [hb]; exact h.2
  · intro hfl
    have h := pollFrom_failed env st n 60 0 1 hn
      (fun j hj => by simpa using hnt j hj) (by simpa using hst) hfl
    constructor
    · show (whisperBody env).result = _
      rw [hb]; exact h.1
    · show (whisperBody env).checks = _
      rw [hb]; exact h.2

/-- Witness for C3: the specification's worked example - two `processing`
answers, then `processed` with retrieval text `hello`: the poller returns
`hello` after exactly 3 status checks. -/
theorem poller_first_terminal_status_witness :
    (whisper_extract envHello).result = Except.ok ("hello".toList) ∧
    (whisper_extract envHello).checks = 3 :=
  (poller_first_terminal_status envHello ("h".toList) 2 ⟨"processed".toList, none⟩ rfl
      (by omega) (by decide) rfl).1 rfl ("hello".toList) rfl

/-- Claim C7: every wait interval of the Job Poller follows the schedule
1, 1.5, 2, 2.5, 3, 3, 3, ...: the `n`-th sleep (0-indexed) lasts
`min (1 + n/2) 3` time units - it starts at 1, grows by 0.5 after every
unsuccessful poll, and is capped at 3. -/
theorem poller_backoff_schedule (env : WhisperEnv) (n : Nat)
    (h : n < (whisper_extract env).sleeps.length) :
    (whisper_extract env).sleeps.getD n 0 = min (1 + (n : ℚ) / 2) 3 := by
  cases hsub : env.whisperSubmit with
  | error e =>
    exfalso
    have hnil : (whisper_extract env).sleeps = [] := by
      show (whisperBody env).sleeps = []
      unfold whisperBody
      rw [hsub]
    rw [hnil] at h
    simp at h
  | ok hash1 =>
    have hb := whisperBody_ok hsub
    have hlen : n < (pollFrom env 60 0 1).sleeps.length := by
      have hs : (whisper_extract env).sleeps = (pollFrom env 60 0 1).sleeps := by
        show (whisperBody env).sleeps = _
        rw [hb]
      rwa [hs] at h
    have hv := pollFrom_sleeps env 60 0 1 (by norm_num) n hlen
    show (whisperBody env).sleeps.getD n 0 = _
    rw [hb]
    exact hv

/-- Witness for C7: with the `envBackoff` schedule at least one sleep
happens, and the first sleep lasts `min (1 + 0/2) 3 = 1` time units. -/
theorem poller_backoff_schedule_witness :
    0 < (whisper_extract envBackoff).sleeps.length ∧
    (whisper_extract envBackoff).sleeps.getD 0 0 = min (1 + ((0 : Nat) : ℚ) / 2) 3 :=
  ⟨by decide, poller_backoff_schedule envBackoff 0 (by decide)⟩

/-- Claim C8: the temporary document file written for the upload no longer
exists when `whisper_extract` finishes, on the success path and on every
failure path alike: the body runs inside `try ... finally` and the
`finally` block unlinks the file whatever the body's outcome (local file
operations themselves are modelled as reliable). -/
theorem temp_file_removed_always (env : WhisperEnv) :
    (whisper_extract env).tmpExistsAfter = false := rfl

/-! ## The Structuring Pipeline -/

/-- Claim C1: for every behavior of the remote services - including any
call that raises - `extract_from_pdf` returns a result dictionary (with
its boolean `success` discriminant) and never propagates an exception:
either the `try` body itself produced the result, or the handler chain
mapped the raised exception to a failure-variant result
(`success = false`). -/
theorem pipeline_always_returns_result (env : PipelineEnv) :
    ∃ r : PipelineResult, extract_from_pdf env = Except.ok r ∧
      (runPipeline env = Except.ok r ∨ r.success = false) := by
  cases h : runPipeline env with
  | ok r => exact ⟨r, by simp [extract_from_pdf, h], Or.inl rfl⟩
  | error e =>
    refine ⟨handleExc e, by simp [extract_from_pdf, h], Or.inr ?_⟩
    cases e <;> rfl

/-- Claim C10: the handlers classify a caught fault by its dynamic
exception type alone, not by the step that raised it: when the
structuring-model call raises - even though the extraction job already
completed successfully - a `TimeoutError` still yields the category
`PDF processing timeout` and a `RuntimeError` still yields
`PDF processing failed`. -/
theorem error_classified_by_exception_type (env : PipelineEnv) (text m : Txt)
    (htext : (whisper_extract env.whisper).result = Except.ok text) :
    (env.gemini (buildPrompt text) = Except.error (PyExc.timeoutError m) →
      extract_from_pdf env = Except.ok (PipelineResult.timeoutFail timeoutCategory m)) ∧
    (env.gemini (buildPrompt text) = Except.error (PyExc.runtimeError m) →
      extract_from_pdf env = Except.ok (PipelineResult.runtimeFail runtimeCategory m)) := by
  constructor <;> intro hg <;>
    simp [extract_from_pdf, runPipeline, htext, hg, handleExc]

/-- Witness for C10: the extraction job of `envGeminiTimeout` succeeds
with text `doc`, the structuring call raises `TimeoutError`, and the
result is the timeout-category failure dictionary. -/
theorem error_classified_by_exception_type_witness :
    (whisper_extract envGeminiTimeout.whisper).result = Except.ok ("doc".toList) ∧
    extract_from_pdf envGeminiTimeout =
      Except.ok (PipelineResult.timeoutFail timeoutCategory ("deadline".toList)) :=
  ⟨rfl, (error_classified_by_exception_type envGeminiTimeout ("doc".toList)
      ("deadline".toList) rfl).1 rfl⟩

/-- Claim C6: when the sanitized structuring-model response is not valid
JSON, `extract_from_pdf` returns the parse-failure dictionary: category
`Failed to parse JSON from Gemini`, the sanitized response verbatim, the
parser's diagnostic message, and the first 200 characters of the
extracted text. -/
theorem parse_failure_result_fields (env : PipelineEnv) (text raw emsg : Txt)
    (htext : (whisper_extract env.whisper).result = Except.ok text)
    (hraw : env.gemini (buildPrompt text) = Except.ok raw)
    (herr : json_loads (clean_json_response raw) = Except.error emsg) :
    extract_from_pdf env = Except.ok (PipelineResult.parseFail parseFailCategory
      (clean_json_response raw) emsg (text.take 200)) := by
  simp [extract_from_pdf, runPipeline, htext, hraw, herr]

/-- Witness for C6: the specification's `not json at all` example. -/
theorem parse_failure_result_fields_witness :
    json_loads (clean_json_response ("not json at all".toList)) =
      Except.error expectingValueMsg ∧
    extract_from_pdf envNotJson = Except.ok (PipelineResult.parseFail parseFailCategory
      (clean_json_response ("not json at all".toList)) expectingValueMsg
      (("doc".toList).take 200)) :=
  ⟨rfl, parse_failure_result_fields envNotJson ("doc".toList) ("not json at all".toList)
      expectingValueMsg rfl rfl rfl⟩

/-- Claim C5 (counterexample): the code performs no shape validation of
the parsed response.  With the structuring model answering the empty JSON
object - valid JSON, but not the full StructuredRecord mapping - the
pipeline still returns a success-variant result, so a partial (here:
empty) record is returned with `success = true`. -/
theorem pipeline_partial_record_counterexample :
    extract_from_pdf envEmptyObj =
      Except.ok (PipelineResult.okR (Json.obj []) (("doc".toList).take 200)) ∧
    (PipelineResult.okR (Json.obj []) (("doc".toList).take 200)).success = true ∧
    isFullRecord (Json.obj []) = false :=
  ⟨rfl, rfl, rfl⟩

/-- Claim C5 (amended): a success-variant result is produced exactly when
the sanitized model response parses as valid JSON - any JSON value at
all; the parsed value is returned without any validation against the
StructuredRecord shape, and only a response that fails to parse yields the
parse-failure result. -/
theorem pipeline_success_iff_parse (env : PipelineEnv) (text raw : Txt)
    (htext : (whisper_extract env.whisper).result = Except.ok text)
    (hraw : env.gemini (buildPrompt text) = Except.ok raw) :
    (∀ v, json_loads (clean_json_response raw) = Except.ok v →
      extract_from_pdf env = Except.ok (PipelineResult.okR v (text.take 200))) ∧
    (∀ r, extract_from_pdf env = Except.ok r → r.success = true →
      ∃ v, json_loads (clean_json_response raw) = Except.ok v ∧
        r = PipelineResult.okR v (text.take 200)) := by
  constructor
  · intro v hv
    simp [extract_from_pdf, runPipeline, htext, hraw, hv]
  · intro r hr hs
    cases hv : json_loads (clean_json_response raw) with
    | ok v =>
      refine ⟨v, rfl, ?_⟩
      simp [extract_from_pdf, runPipeline, htext, hraw, hv] at hr
      exact hr.symm
    | error e =>
      exfalso
      simp [extract_from_pdf, runPipeline, htext, hraw, hv] at hr
      rw [← hr] at hs
      simp [PipelineResult.success] at hs

/-- Witness for the amended C5: the specification's fenced full-record
example parses and yields the success-variant result carrying it. -/
theorem pipeline_success_iff_parse_witness :
    (whisper_extract envFullRecord.whisper).result = Except.ok ("doc".toList) ∧
    envFullRecord.gemini (buildPrompt ("doc".toList)) = Except.ok rawFullRecord ∧
    json_loads (clean_json_response rawFullRecord) = Except.ok fullRecordJson ∧
    extract_from_pdf envFullRecord =
      Except.ok (PipelineResult.okR fullRecordJson (("doc".toList).take 200)) :=
  ⟨rfl, rfl, rfl,
    (pipeline_success_iff_parse envFullRecord ("doc".toList) rawFullRecord rfl rfl).1
      fullRecordJson rfl⟩
